import Mathlib

set_option linter.unusedVariables false

/-!
Verification of the Mars spectrometer cloud-detection pipeline
(`process_spectra.py`), shallowly embedded over `ℚ`.

The numeric type of the source (numpy float64) is modelled by `ℚ`; all
wavelength and threshold constants of the source are exact decimal fractions,
and for every concrete comparison appearing in the claims the float64 and
rational orderings agree.  Fallible operations (`np.argmin` on an empty
sequence, list indexing) are modelled with `Except`, written as explicit
matches that propagate the error exactly as a Python exception would.  The
random draw of `np.random.rand(100)` and the per-call stream of the batch
driver are passed as explicit parameters.
-/

deriving instance DecidableEq for Except

namespace MarsAtmo

/-- Python exception kinds relevant to this embedding.  `valueError` is what
`np.argmin` raises on an empty sequence; `indexError` is out-of-range list
indexing.  `invalidInputError` is the error kind named by the specification's
error design (section 7); the source never raises it and defines no such
type. -/
inductive PyErr where
  | valueError
  | indexError
  | invalidInputError
deriving DecidableEq

/-- A spectrum: parallel lists of wavelengths (µm) and unitless absorption
values, as in the `{'wavelengths': ..., 'absorption': ...}` dictionaries of
the source. -/
structure Spectrum where
  wavelengths : List ℚ
  absorption : List ℚ
deriving DecidableEq

/-- Index and value of the first minimum of `x :: ys` (index relative to
`x :: ys`).  The head wins ties, and within the tail the earlier element wins,
mirroring `np.argmin`, which returns the first occurrence of the minimum. -/
def argminPair : ℚ → List ℚ → ℕ × ℚ
  | x, [] => (0, x)
  | x, y :: ys =>
    let p := argminPair y ys
    if x ≤ p.2 then (0, x) else (p.1 + 1, p.2)

/-- `np.argmin` over a list: the first index of the minimum, and
`ValueError` on an empty input. -/
def npArgmin (xs : List ℚ) : Except PyErr ℕ :=
  match xs with
  | [] => .error .valueError
  | x :: ys => .ok (argminPair x ys).1

/-- Fallible list indexing, mirroring `arr[idx]`. -/
def npGet (xs : List ℚ) (i : ℕ) : Except PyErr ℚ :=
  match xs.get? i with
  | some a => .ok a
  | none => .error .indexError

/-- `detect_clouds(spectrum_data, threshold=0.05)`: pick the index closest to
1.65 µm with `np.argmin(np.abs(wavelengths - 1.65))` and return
`absorption[idx] > threshold`.  The source's default `threshold` is `0.05`;
the embedding passes it explicitly. -/
def detect_clouds (s : Spectrum) (threshold : ℚ) : Except PyErr Bool :=
  match npArgmin (s.wavelengths.map fun w => |w - 1.65|) with
  | .error e => .error e
  | .ok idx =>
    match npGet s.absorption idx with
    | .error e => .error e
    | .ok a => .ok (decide (a > threshold))

/-- `estimate_particle_radius(spectrum_data)`: nearest indices to 1.5 µm and
2.0 µm, guard `if abs_1_5 == 0: return 0.0`, else
`radius = k * (abs_2_0 / abs_1_5) + c` with the literals `k = 12.5`,
`c = 0.2` of the source. -/
def estimate_particle_radius (s : Spectrum) : Except PyErr ℚ :=
  match npArgmin (s.wavelengths.map fun w => |w - 1.5|) with
  | .error e => .error e
  | .ok idx15 =>
    match npArgmin (s.wavelengths.map fun w => |w - 2.0|) with
    | .error e => .error e
    | .ok idx20 =>
      match npGet s.absorption idx15 with
      | .error e => .error e
      | .ok abs15 =>
        match npGet s.absorption idx20 with
        | .error e => .error e
        | .ok abs20 =>
          if abs15 = 0 then .ok 0
          else .ok (12.5 * (abs20 / abs15) + 0.2)

/-- `load_spectrum_data(file_path)`: ignores the path and fabricates synthetic
data, `wavelengths = np.linspace(1.0, 3.0, 100)` and
`absorption = np.random.rand(100) * 0.1`; the random draw is supplied as the
parameter `r`. -/
def load_spectrum_data (r : Fin 100 → ℚ) (filePath : String) : Spectrum where
  wavelengths := List.ofFn fun i : Fin 100 => 1 + 2 * ((i : ℕ) : ℚ) / 99
  absorption := List.ofFn fun i => r i * 0.1

/-- What the batch driver records for one file: the detection outcome and, when
a cloud was detected, the estimated radius it computes and prints. -/
structure Report where
  detected : Bool
  radius : Option ℚ
deriving DecidableEq

/-- One iteration of the loop body of `process_spectra`: load, detect with the
default threshold `0.05`, and if a cloud is detected estimate the radius. -/
def processFile (r : Fin 100 → ℚ) (filePath : String) : Except PyErr Report :=
  match detect_clouds (load_spectrum_data r filePath) 0.05 with
  | .error e => .error e
  | .ok det =>
    if det then
      match estimate_particle_radius (load_spectrum_data r filePath) with
      | .error e => .error e
      | .ok rad => .ok ⟨true, some rad⟩
    else
      .ok ⟨false, none⟩

/-- `process_spectra(file_paths)`: iterate the paths in order, drawing the
`i`-th random vector from `rng`.  The source has no exception handling, so an
error in any file aborts the whole run (modelled by the error propagation);
the per-file printed results are modelled as the returned `Report` list. -/
def process_spectra (rng : ℕ → Fin 100 → ℚ) : ℕ → List String → Except PyErr (List Report)
  | _, [] => .ok []
  | i, p :: ps =>
    match processFile (rng i) p with
    | .error e => .error e
    | .ok rep =>
      match process_spectra rng (i + 1) ps with
      | .error e => .error e
      | .ok reps => .ok (rep :: reps)

/-- Modelled from the spec: `detect(spectrum, target_wavelength=1.65µm,
threshold=0.05)` of section 4.2, with the target wavelength exposed as a
parameter.  The source hardcodes the target `1.65` instead. -/
def detect_spec (s : Spectrum) (target threshold : ℚ) : Except PyErr Bool :=
  match npArgmin (s.wavelengths.map fun w => |w - target|) with
  | .error e => .error e
  | .ok idx =>
    match npGet s.absorption idx with
    | .error e => .error e
    | .ok a => .ok (decide (a > threshold))

/-- Modelled from the spec: `estimate_radius(spectrum, k=12.5, c=0.2)` of
section 4.3, with the empirical constants `k` and `c` exposed as
configuration.  The source hardcodes `k = 12.5` and `c = 0.2` instead. -/
def estimate_radius_spec (s : Spectrum) (k c : ℚ) : Except PyErr ℚ :=
  match npArgmin (s.wavelengths.map fun w => |w - 1.5|) with
  | .error e => .error e
  | .ok idx15 =>
    match npArgmin (s.wavelengths.map fun w => |w - 2.0|) with
    | .error e => .error e
    | .ok idx20 =>
      match npGet s.absorption idx15 with
      | .error e => .error e
      | .ok abs15 =>
        match npGet s.absorption idx20 with
        | .error e => .error e
        | .ok abs20 =>
          if abs15 = 0 then .ok 0
          else .ok (k * (abs20 / abs15) + c)

/-- The specification's nearest-neighbor rule: `i` is an in-range index whose
wavelength has minimum absolute distance to the target `t`, and every earlier
index is strictly farther away (ties broken by lowest index). -/
def NearestTo (ws : List ℚ) (t : ℚ) (i : ℕ) : Prop :=
  i < ws.length ∧
  (∀ k < ws.length, |ws.getD i 0 - t| ≤ |ws.getD k 0 - t|) ∧
  (∀ k < i, |ws.getD i 0 - t| < |ws.getD k 0 - t|)

/-- The five-point spectrum of the spec's nearest-neighbor test, with an
absorption array making the 1.65 µm sample the strong one. -/
def sampleFive : Spectrum :=
  ⟨[1.0, 1.5, 1.65, 2.0, 3.0], [0.01, 0.01, 0.2, 0.01, 0.01]⟩

/-- The two-point spectrum of the spec's worked examples:
`wavelengths=[1.5, 2.0]`, `absorption=[0.1, 0.2]`. -/
def sampleTwo : Spectrum := ⟨[1.5, 2.0], [0.1, 0.2]⟩

/-- `sampleTwo` with the absorption changed only away from the sample nearest
to 1.65 µm. -/
def sampleTwoAlt : Spectrum := ⟨[1.5, 2.0], [0.1, 0.9]⟩

/-- A spectrum whose absorption at the sample nearest to 1.5 µm is exactly
zero. -/
def sampleZero : Spectrum := ⟨[1.5, 2.0], [0, 0.2]⟩

/-- The empty spectrum: no samples at all. -/
def emptySpectrum : Spectrum := ⟨[], []⟩

/-! ### Properties of the argmin and indexing primitives -/

theorem argminPair_fst_le (ys : List ℚ) (x : ℚ) : (argminPair x ys).1 ≤ ys.length := by
  induction ys generalizing x with
  | nil => simp [argminPair]
  | cons y ys ih =>
    by_cases h : x ≤ (argminPair y ys).2
    · simp [argminPair, h]
    · simpa [argminPair, h] using ih y

theorem argminPair_getD (ys : List ℚ) (x : ℚ) :
    (x :: ys).getD (argminPair x ys).1 0 = (argminPair x ys).2 := by
  induction ys generalizing x with
  | nil => simp [argminPair]
  | cons y ys ih =>
    by_cases h : x ≤ (argminPair y ys).2
    · simp [argminPair, h]
    · simpa [argminPair, h] using ih y

theorem argminPair_min (ys : List ℚ) (x : ℚ) :
    ∀ k < (x :: ys).length, (argminPair x ys).2 ≤ (x :: ys).getD k 0 := by
  induction ys generalizing x with
  | nil =>
    intro k hk
    have hk0 : k = 0 := by simpa using Nat.lt_one_iff.mp (by simpa using hk)
    simp [argminPair, hk0]
  | cons y ys ih =>
    intro k hk
    by_cases h : x ≤ (argminPair y ys).2
    · cases k with
      | zero => simp [argminPair, h]
      | succ j =>
        have hj : j < (y :: ys).length := by simpa using Nat.lt_of_succ_lt_succ hk
        have := ih y j hj
        simp only [argminPair, if_pos h, List.getD_cons_succ]
        exact le_trans h this
    · cases k with
      | zero =>
        simp only [argminPair, if_neg h, List.getD_cons_zero]
        exact le_of_lt (lt_of_not_le h)
      | succ j =>
        have hj : j < (y :: ys).length := by simpa using Nat.lt_of_succ_lt_succ hk
        simpa [argminPair, h] using ih y j hj

theorem argminPair_first (ys : List ℚ) (x : ℚ) :
    ∀ k < (argminPair x ys).1, (argminPair x ys).2 < (x :: ys).getD k 0 := by
  induction ys generalizing x with
  | nil => simp [argminPair]
  | cons y ys ih =>
    intro k hk
    by_cases h : x ≤ (argminPair y ys).2
    · simp [argminPair, h] at hk
    · cases k with
      | zero =>
        simp only [argminPair, if_neg h, List.getD_cons_zero]
        exact lt_of_not_le h
      | succ j =>
        simp only [argminPair, if_neg h] at hk ⊢
        have hj : j < (argminPair y ys).1 := Nat.lt_of_succ_lt_succ hk
        simpa using ih y j hj

theorem npArgmin_ok_of_ne_nil (xs : List ℚ) (h : xs ≠ []) : ∃ i, npArgmin xs = .ok i := by
  cases xs with
  | nil => exact absurd rfl h
  | cons x ys => exact ⟨(argminPair x ys).1, rfl⟩

theorem npArgmin_lt_length {xs : List ℚ} {i : ℕ} (h : npArgmin xs = .ok i) :
    i < xs.length := by
  cases xs with
  | nil => exact absurd h (by simp [npArgmin])
  | cons x ys =>
    have hi : (argminPair x ys).1 = i := by
      have := h
      simp only [npArgmin, Except.ok.injEq] at this
      exact this
    subst hi
    simpa using Nat.lt_succ_of_le (argminPair_fst_le ys x)

theorem npArgmin_le {xs : List ℚ} {i : ℕ} (h : npArgmin xs = .ok i) :
    ∀ k < xs.length, xs.getD i 0 ≤ xs.getD k 0 := by
  cases xs with
  | nil => exact absurd h (by simp [npArgmin])
  | cons x ys =>
    have hi : (argminPair x ys).1 = i := by
      simp only [npArgmin, Except.ok.injEq] at h
      exact h
    subst hi
    intro k hk
    rw [argminPair_getD]
    exact argminPair_min ys x k hk

theorem npArgmin_first {xs : List ℚ} {i : ℕ} (h : npArgmin xs = .ok i) :
    ∀ k < i, xs.getD k 0 > xs.getD i 0 := by
  cases xs with
  | nil => exact absurd h (by simp [npArgmin])
  | cons x ys =>
    have hi : (argminPair x ys).1 = i := by
      simp only [npArgmin, Except.ok.injEq] at h
      exact h
    subst hi
    intro k hk
    rw [argminPair_getD]
    exact argminPair_first ys x k hk

theorem getD_map (f : ℚ → ℚ) (ws : List ℚ) :
    ∀ k < ws.length, (ws.map f).getD k 0 = f (ws.getD k 0) := by
  induction ws with
  | nil => intro k hk; exact absurd hk (by simp)
  | cons w ws ih =>
    intro k hk
    cases k with
    | zero => simp
    | succ j =>
      have hj : j < ws.length := Nat.lt_of_succ_lt_succ (by simpa using hk)
      simpa using ih j hj

theorem npArgmin_nearest {ws : List ℚ} {t : ℚ} {i : ℕ}
    (h : npArgmin (ws.map fun w => |w - t|) = .ok i) : NearestTo ws t i := by
  have hlt : i < ws.length := by simpa using npArgmin_lt_length h
  refine ⟨hlt, ?_, ?_⟩
  · intro k hk
    have hmin := npArgmin_le h k (by simpa using hk)
    rwa [getD_map _ _ i hlt, getD_map _ _ k hk] at hmin
  · intro k hk
    have hklen : k < ws.length := lt_trans hk hlt
    have hfirst := npArgmin_first h k hk
    rwa [getD_map _ _ i hlt, getD_map _ _ k hklen] at hfirst

theorem npGet_ok (xs : List ℚ) (i : ℕ) (h : i < xs.length) :
    npGet xs i = .ok (xs.getD i 0) := by
  induction xs generalizing i with
  | nil => exact absurd h (by simp)
  | cons x xs ih =>
    cases i with
    | zero => rfl
    | succ j =>
      have hj : j < xs.length := Nat.lt_of_succ_lt_succ (by simpa using h)
      simpa [npGet, List.getD_cons_succ] using ih j hj

/-! ### Characterizations of the detector and the estimator -/

theorem detect_clouds_eq {s : Spectrum} {i : ℕ} (thr : ℚ)
    (hlen : s.absorption.length = s.wavelengths.length)
    (h : npArgmin (s.wavelengths.map fun w => |w - 1.65|) = .ok i) :
    detect_clouds s thr = .ok (decide (s.absorption.getD i 0 > thr)) := by
  have hi : i < s.wavelengths.length := by simpa using npArgmin_lt_length h
  have hget : npGet s.absorption i = .ok (s.absorption.getD i 0) :=
    npGet_ok _ _ (by rw [hlen]; exact hi)
  simp only [detect_clouds, h, hget]

theorem detect_clouds_total (s : Spectrum) (thr : ℚ)
    (hlen : s.absorption.length = s.wavelengths.length)
    (hne : s.wavelengths ≠ []) :
    ∃ i, npArgmin (s.wavelengths.map fun w => |w - 1.65|) = .ok i ∧
      detect_clouds s thr = .ok (decide (s.absorption.getD i 0 > thr)) := by
  obtain ⟨i, hi⟩ := npArgmin_ok_of_ne_nil (s.wavelengths.map fun w => |w - 1.65|)
    (by simpa [List.map_eq_nil_iff] using hne)
  exact ⟨i, hi, detect_clouds_eq thr hlen hi⟩

theorem estimate_particle_radius_eq {s : Spectrum} {i15 i20 : ℕ}
    (hlen : s.absorption.length = s.wavelengths.length)
    (h15 : npArgmin (s.wavelengths.map fun w => |w - 1.5|) = .ok i15)
    (h20 : npArgmin (s.wavelengths.map fun w => |w - 2.0|) = .ok i20) :
    estimate_particle_radius s =
      if s.absorption.getD i15 0 = 0 then .ok 0
      else .ok (12.5 * (s.absorption.getD i20 0 / s.absorption.getD i15 0) + 0.2) := by
  have hi15 : i15 < s.wavelengths.length := by simpa using npArgmin_lt_length h15
  have hi20 : i20 < s.wavelengths.length := by simpa using npArgmin_lt_length h20
  have hget15 : npGet s.absorption i15 = .ok (s.absorption.getD i15 0) :=
    npGet_ok _ _ (by rw [hlen]; exact hi15)
  have hget20 : npGet s.absorption i20 = .ok (s.absorption.getD i20 0) :=
    npGet_ok _ _ (by rw [hlen]; exact hi20)
  simp only [estimate_particle_radius, h15, h20, hget15, hget20]

theorem estimate_particle_radius_total (s : Spectrum)
    (hlen : s.absorption.length = s.wavelengths.length)
    (hne : s.wavelengths ≠ []) :
    ∃ i15 i20,
      npArgmin (s.wavelengths.map fun w => |w - 1.5|) = .ok i15 ∧
      npArgmin (s.wavelengths.map fun w => |w - 2.0|) = .ok i20 ∧
      estimate_particle_radius s =
        if s.absorption.getD i15 0 = 0 then .ok 0
        else .ok (12.5 * (s.absorption.getD i20 0 / s.absorption.getD i15 0) + 0.2) := by
  obtain ⟨i15, h15⟩ := npArgmin_ok_of_ne_nil (s.wavelengths.map fun w => |w - 1.5|)
    (by simpa [List.map_eq_nil_iff] using hne)
  obtain ⟨i20, h20⟩ := npArgmin_ok_of_ne_nil (s.wavelengths.map fun w => |w - 2.0|)
    (by simpa [List.map_eq_nil_iff] using hne)
  exact ⟨i15, i20, h15, h20, estimate_particle_radius_eq hlen h15 h20⟩

/-! ### Properties of the loader and the batch driver -/

theorem load_spectrum_data_lengths (r : Fin 100 → ℚ) (p : String) :
    (load_spectrum_data r p).wavelengths.length = 100 ∧
    (load_spectrum_data r p).absorption.length = 100 := by
  constructor <;> simp only [load_spectrum_data, List.length_ofFn]

theorem load_spectrum_data_ne_nil (r : Fin 100 → ℚ) (p : String) :
    (load_spectrum_data r p).wavelengths ≠ [] :=
  List.length_pos.mp (by rw [(load_spectrum_data_lengths r p).1]; norm_num)

theorem load_spectrum_data_ignores_path (r : Fin 100 → ℚ) (p q : String) :
    load_spectrum_data r p = load_spectrum_data r q := rfl

theorem load_spectrum_data_sorted (r : Fin 100 → ℚ) (p : String) :
    (load_spectrum_data r p).wavelengths.Pairwise (· < ·) := by
  show (List.ofFn fun i : Fin 100 => 1 + 2 * ((i : ℕ) : ℚ) / 99).Pairwise (· < ·)
  refine List.pairwise_ofFn.mpr ?_
  intro i j hij
  have hn : (i : ℕ) < (j : ℕ) := hij
  have hq : ((i : ℕ) : ℚ) < ((j : ℕ) : ℚ) := by exact_mod_cast hn
  linarith

theorem load_spectrum_data_endpoints (r : Fin 100 → ℚ) (p : String) :
    (load_spectrum_data r p).wavelengths.getD 0 0 = 1.0 ∧
    (load_spectrum_data r p).wavelengths.getD 99 0 = 3.0 := by
  have hl : (load_spectrum_data r p).wavelengths.length = 100 :=
    (load_spectrum_data_lengths r p).1
  have h0 : (0 : ℕ) < (load_spectrum_data r p).wavelengths.length := by rw [hl]; norm_num
  have h99 : (99 : ℕ) < (load_spectrum_data r p).wavelengths.length := by rw [hl]; norm_num
  constructor
  · rw [List.getD_eq_getElem _ _ h0]
    simp only [load_spectrum_data, List.getElem_ofFn]
    norm_num
  · rw [List.getD_eq_getElem _ _ h99]
    simp only [load_spectrum_data, List.getElem_ofFn]
    norm_num

attribute [irreducible] load_spectrum_data

theorem processFile_ok (r : Fin 100 → ℚ) (p : String) :
    ∃ rep : Report, processFile r p = .ok rep ∧ rep.radius.isSome = rep.detected := by
  have hlen : (load_spectrum_data r p).absorption.length =
      (load_spectrum_data r p).wavelengths.length := by
    rw [(load_spectrum_data_lengths r p).1, (load_spectrum_data_lengths r p).2]
  obtain ⟨i, hi, hdet⟩ :=
    detect_clouds_total (load_spectrum_data r p) 0.05 hlen (load_spectrum_data_ne_nil r p)
  obtain ⟨i15, i20, h15, h20, hest⟩ :=
    estimate_particle_radius_total (load_spectrum_data r p) hlen (load_spectrum_data_ne_nil r p)
  cases hd : decide ((load_spectrum_data r p).absorption.getD i 0 > 0.05) with
  | false =>
    rw [hd] at hdet
    refine ⟨⟨false, none⟩, ?_, rfl⟩
    unfold processFile
    rw [hdet]
    rfl
  | true =>
    rw [hd] at hdet
    by_cases hz : (load_spectrum_data r p).absorption.getD i15 0 = 0
    · rw [if_pos hz] at hest
      refine ⟨⟨true, some 0⟩, ?_, rfl⟩
      unfold processFile
      rw [hdet, hest]
      rfl
    · rw [if_neg hz] at hest
      refine ⟨⟨true, some (12.5 * ((load_spectrum_data r p).absorption.getD i20 0 /
        (load_spectrum_data r p).absorption.getD i15 0) + 0.2)⟩, ?_, rfl⟩
      unfold processFile
      rw [hdet, hest]
      rfl

theorem process_spectra_ok (rng : ℕ → Fin 100 → ℚ) :
    ∀ (paths : List String) (i : ℕ), ∃ reps : List Report,
      process_spectra rng i paths = .ok reps ∧
      reps.length = paths.length ∧
      reps.all (fun rep => rep.radius.isSome == rep.detected) = true := by
  intro paths
  induction paths with
  | nil => exact fun i => ⟨[], rfl, rfl, rfl⟩
  | cons p ps ih =>
    intro i
    obtain ⟨rep, hrep, hwf⟩ := processFile_ok (rng i) p
    obtain ⟨reps, hreps, hlen, hall⟩ := ih (i + 1)
    refine ⟨rep :: reps, ?_, by simp [hlen], ?_⟩
    · rw [process_spectra.eq_2, hrep, hreps]
    · simp only [List.all_cons, hwf, hall, beq_self_eq_true, Bool.true_and]

theorem processFile_ignores_path (r : Fin 100 → ℚ) (p q : String) :
    processFile r p = processFile r q := by
  unfold processFile
  rw [load_spectrum_data_ignores_path r p q]

theorem process_spectra_ignores_paths (rng : ℕ → Fin 100 → ℚ) :
    ∀ (ps qs : List String) (i : ℕ), ps.length = qs.length →
      process_spectra rng i ps = process_spectra rng i qs := by
  intro ps
  induction ps with
  | nil =>
    intro qs i h
    cases qs with
    | nil => rfl
    | cons q qs => exact absurd h (by simp)
  | cons p ps ih =>
    intro qs i h
    cases qs with
    | nil => exact absurd h (by simp)
    | cons q qs =>
      rw [process_spectra.eq_2, process_spectra.eq_2,
        processFile_ignores_path (rng i) p q, ih qs (i + 1) (by simpa using h)]

/-! ### The claims -/

/-- Claim C1: for every spectrum with at least one sample (absorption parallel
to wavelengths), `detect_clouds` selects the sample whose wavelength has
minimum absolute distance to the target wavelength 1.65 µm, ties broken by
lowest index, and returns true if and only if that sample's absorption
strictly exceeds the threshold, with no interpolation; in particular on
wavelengths `[1.0, 1.5, 1.65, 2.0, 3.0]` it selects index 2. -/
theorem detect_is_nearest_neighbor (s : Spectrum) (threshold : ℚ)
    (hlen : s.absorption.length = s.wavelengths.length)
    (hne : s.wavelengths ≠ []) :
    (∃ i, npArgmin (s.wavelengths.map fun w => |w - 1.65|) = .ok i ∧
        NearestTo s.wavelengths 1.65 i ∧
        detect_clouds s threshold = .ok (decide (s.absorption.getD i 0 > threshold))) ∧
    npArgmin (sampleFive.wavelengths.map fun w => |w - 1.65|) = .ok 2 := by
  constructor
  · obtain ⟨i, hi, hdet⟩ := detect_clouds_total s threshold hlen hne
    exact ⟨i, hi, npArgmin_nearest hi, hdet⟩
  · norm_num [sampleFive, npArgmin, argminPair, abs]

/-- Witness for the C1 theorem at the spec's five-point spectrum. -/
theorem detect_is_nearest_neighbor_witness :
    (sampleFive.absorption.length = sampleFive.wavelengths.length ∧
      sampleFive.wavelengths ≠ []) ∧
    ((∃ i, npArgmin (sampleFive.wavelengths.map fun w => |w - 1.65|) = .ok i ∧
        NearestTo sampleFive.wavelengths 1.65 i ∧
        detect_clouds sampleFive 0.05 =
          .ok (decide (sampleFive.absorption.getD i 0 > 0.05))) ∧
      npArgmin (sampleFive.wavelengths.map fun w => |w - 1.65|) = .ok 2) :=
  ⟨⟨rfl, by decide⟩, detect_is_nearest_neighbor sampleFive 0.05 rfl (by decide)⟩

/-- Claim C2: for every spectrum (with parallel data and at least one sample),
`estimate_particle_radius` locates the nearest samples to 1.5 µm and 2.0 µm
independently by the detection's nearest-neighbor rule and, whenever the
1.5 µm absorption is nonzero, returns `12.5 * (abs_2_0 / abs_1_5) + 0.2`;
in particular on `wavelengths=[1.5, 2.0]`, `absorption=[0.1, 0.2]` it returns
`25.2`. -/
theorem estimate_radius_follows_formula (s : Spectrum)
    (hlen : s.absorption.length = s.wavelengths.length)
    (hne : s.wavelengths ≠ []) :
    (∃ i15 i20,
        npArgmin (s.wavelengths.map fun w => |w - 1.5|) = .ok i15 ∧
        npArgmin (s.wavelengths.map fun w => |w - 2.0|) = .ok i20 ∧
        NearestTo s.wavelengths 1.5 i15 ∧
        NearestTo s.wavelengths 2.0 i20 ∧
        (s.absorption.getD i15 0 ≠ 0 →
          estimate_particle_radius s =
            .ok (12.5 * (s.absorption.getD i20 0 / s.absorption.getD i15 0) + 0.2))) ∧
    estimate_particle_radius sampleTwo = .ok 25.2 := by
  constructor
  · obtain ⟨i15, i20, h15, h20, hest⟩ := estimate_particle_radius_total s hlen hne
    refine ⟨i15, i20, h15, h20, npArgmin_nearest h15, npArgmin_nearest h20, fun hz => ?_⟩
    rw [hest, if_neg hz]
  · norm_num [sampleTwo, estimate_particle_radius, npArgmin, argminPair, npGet, abs]

/-- Witness for the C2 theorem at the spec's two-point spectrum. -/
theorem estimate_radius_follows_formula_witness :
    (sampleTwo.absorption.length = sampleTwo.wavelengths.length ∧
      sampleTwo.wavelengths ≠ []) ∧
    ((∃ i15 i20,
        npArgmin (sampleTwo.wavelengths.map fun w => |w - 1.5|) = .ok i15 ∧
        npArgmin (sampleTwo.wavelengths.map fun w => |w - 2.0|) = .ok i20 ∧
        NearestTo sampleTwo.wavelengths 1.5 i15 ∧
        NearestTo sampleTwo.wavelengths 2.0 i20 ∧
        (sampleTwo.absorption.getD i15 0 ≠ 0 →
          estimate_particle_radius sampleTwo =
            .ok (12.5 * (sampleTwo.absorption.getD i20 0 /
              sampleTwo.absorption.getD i15 0) + 0.2))) ∧
      estimate_particle_radius sampleTwo = .ok 25.2) :=
  ⟨⟨rfl, by decide⟩, estimate_radius_follows_formula sampleTwo rfl (by decide)⟩

/-- Claim C3: for every spectrum whose absorption at the sample nearest to
1.5 µm is exactly zero, `estimate_particle_radius` deterministically returns
the undefined sentinel 0.0 and the division branch is never reached. -/
theorem estimate_radius_zero_sentinel (s : Spectrum)
    (hlen : s.absorption.length = s.wavelengths.length)
    (hne : s.wavelengths ≠ [])
    (hzero : Except.map (fun i => s.absorption.getD i 0)
        (npArgmin (s.wavelengths.map fun w => |w - 1.5|)) = .ok 0) :
    estimate_particle_radius s = .ok 0 := by
  obtain ⟨i15, i20, h15, h20, hest⟩ := estimate_particle_radius_total s hlen hne
  rw [h15] at hzero
  have hz : s.absorption.getD i15 0 = 0 := by simpa [Except.map] using hzero
  rw [hest, if_pos hz]

/-- Witness for the C3 theorem at a spectrum with zero absorption at the
sample nearest to 1.5 µm. -/
theorem estimate_radius_zero_sentinel_witness :
    (sampleZero.absorption.length = sampleZero.wavelengths.length ∧
      sampleZero.wavelengths ≠ [] ∧
      Except.map (fun i => sampleZero.absorption.getD i 0)
        (npArgmin (sampleZero.wavelengths.map fun w => |w - 1.5|)) = .ok 0) ∧
    estimate_particle_radius sampleZero = .ok 0 :=
  ⟨⟨rfl, by decide, by norm_num [sampleZero, npArgmin, argminPair, Except.map, abs]⟩,
   estimate_radius_zero_sentinel sampleZero rfl (by decide)
     (by norm_num [sampleZero, npArgmin, argminPair, Except.map, abs])⟩

/-- Claim C4 (code bug): the batch driver has no failure handling and records
no error entries: processing `["good.csv", "missing.csv"]` is identical to
processing any other two paths — the missing file is silently processed from
fabricated synthetic data as an ordinary success, not caught and recorded as
an error entry. -/
theorem batch_driver_has_no_error_entries (rng : ℕ → Fin 100 → ℚ) :
    process_spectra rng 0 ["good.csv", "missing.csv"] =
      process_spectra rng 0 ["good.csv", "present.csv"] ∧
    ∃ rep1 rep2, process_spectra rng 0 ["good.csv", "missing.csv"] =
      .ok [rep1, rep2] := by
  constructor
  · exact process_spectra_ignores_paths rng _ _ 0 rfl
  · obtain ⟨rep1, h1, _⟩ := processFile_ok (rng 0) "good.csv"
    obtain ⟨rep2, h2, _⟩ := processFile_ok (rng (0 + 1)) "missing.csv"
    refine ⟨rep1, rep2, ?_⟩
    simp only [process_spectra.eq_2, process_spectra.eq_1, h1, h2]

/-- Claim C5 counterexample: on the empty spectrum both operations fail, but
with the `ValueError` that `np.argmin` raises on an empty sequence, not with
the spec's `InvalidInputError`, which the source never raises and does not
define. -/
theorem empty_spectrum_error_is_valueError :
    detect_clouds emptySpectrum 0.05 = .error .valueError ∧
    estimate_particle_radius emptySpectrum = .error .valueError ∧
    detect_clouds emptySpectrum 0.05 ≠ .error .invalidInputError ∧
    estimate_particle_radius emptySpectrum ≠ .error .invalidInputError := by
  have h1 : detect_clouds emptySpectrum 0.05 = .error .valueError := by
    norm_num [emptySpectrum, detect_clouds, npArgmin]
  have h2 : estimate_particle_radius emptySpectrum = .error .valueError := by
    norm_num [emptySpectrum, estimate_particle_radius, npArgmin]
  exact ⟨h1, h2, by rw [h1]; decide, by rw [h2]; decide⟩

/-- Claim C5 amended: every empty spectrum (wavelengths of length zero) makes
detection and estimation fail — with `ValueError` — rather than index into
empty data. -/
theorem empty_spectrum_fails (s : Spectrum) (threshold : ℚ)
    (h : s.wavelengths = []) :
    detect_clouds s threshold = .error .valueError ∧
    estimate_particle_radius s = .error .valueError := by
  constructor
  · unfold detect_clouds
    rw [h]
    rfl
  · unfold estimate_particle_radius
    rw [h]
    rfl

/-- Witness for the amended C5 theorem at the empty spectrum. -/
theorem empty_spectrum_fails_witness :
    emptySpectrum.wavelengths = [] ∧
    (detect_clouds emptySpectrum 0.05 = .error .valueError ∧
      estimate_particle_radius emptySpectrum = .error .valueError) :=
  ⟨rfl, empty_spectrum_fails emptySpectrum 0.05 rfl⟩

/-- Claim C6 counterexample: for wavelengths `[1.5, 2.0]` and target 1.65 µm
the selected nearest sample is index 0 — wavelength 1.5 µm, absorption 0.1 —
not the sample at 2.0 µm with absorption 0.2 stated by the claim
(|1.5 − 1.65| = 0.15 < 0.35 = |2.0 − 1.65|). -/
theorem example_nearest_sample_is_at_1_5 :
    npArgmin (sampleTwo.wavelengths.map fun w => |w - 1.65|) = .ok 0 ∧
    sampleTwo.wavelengths.getD 0 0 = 1.5 ∧
    sampleTwo.absorption.getD 0 0 = 0.1 ∧
    npArgmin (sampleTwo.wavelengths.map fun w => |w - 1.65|) ≠ .ok 1 := by
  have h : npArgmin (sampleTwo.wavelengths.map fun w => |w - 1.65|) = .ok 0 := by
    norm_num [sampleTwo, npArgmin, argminPair, abs]
  exact ⟨h, rfl, rfl, by rw [h]; decide⟩

/-- Claim C6 amended: on the spec's two-point example `detect_clouds` selects
the sample at 1.5 µm with absorption 0.1 as the nearest to 1.65 µm, and
returns true at threshold 0.05 and false at threshold 0.25. -/
theorem detect_example_results :
    detect_clouds sampleTwo 0.05 = .ok true ∧
    detect_clouds sampleTwo 0.25 = .ok false ∧
    npArgmin (sampleTwo.wavelengths.map fun w => |w - 1.65|) = .ok 0 ∧
    sampleTwo.wavelengths.getD 0 0 = 1.5 ∧
    sampleTwo.absorption.getD 0 0 = 0.1 := by
  refine ⟨?_, ?_, ?_, rfl, rfl⟩ <;>
    norm_num [sampleTwo, detect_clouds, npArgmin, argminPair, npGet, abs]

/-- Claim C7: the batch driver processes the paths in input order — load,
then detect, then estimate exactly when detected — and yields one report per
input path, each containing a radius exactly when a cloud was detected for
that file. -/
theorem process_emits_one_report_per_path (rng : ℕ → Fin 100 → ℚ) (i : ℕ)
    (paths : List String) :
    ∃ reps : List Report, process_spectra rng i paths = .ok reps ∧
      reps.length = paths.length ∧
      reps.all (fun rep => rep.radius.isSome == rep.detected) = true :=
  process_spectra_ok rng paths i

/-- Claim C8 (code bug): only `threshold` is exposed as a parameter; the
target wavelength 1.65 µm and the empirical constants `k = 12.5`, `c = 0.2`
are hardcoded literals — the source functions coincide with the
spec-configurable versions exactly at those fixed constants. -/
theorem constants_are_hardcoded (s : Spectrum) (threshold : ℚ) :
    estimate_particle_radius s = estimate_radius_spec s 12.5 0.2 ∧
    detect_clouds s threshold = detect_spec s 1.65 threshold :=
  ⟨rfl, rfl⟩

/-- Claim C9: for spectra with at least one sample `detect_clouds` never
raises, and its boolean result depends only on the absorption value at the
nearest-to-1.65 µm index: two spectra with identical wavelengths whose
absorptions agree there yield the same result. -/
theorem detect_total_and_noninterference (s₁ s₂ : Spectrum) (threshold : ℚ)
    (h1 : s₁.absorption.length = s₁.wavelengths.length)
    (h2 : s₂.absorption.length = s₂.wavelengths.length)
    (hw : s₁.wavelengths = s₂.wavelengths)
    (hne : s₁.wavelengths ≠ [])
    (hagree : Except.map (fun i => s₁.absorption.getD i 0)
        (npArgmin (s₁.wavelengths.map fun w => |w - 1.65|)) =
      Except.map (fun i => s₂.absorption.getD i 0)
        (npArgmin (s₂.wavelengths.map fun w => |w - 1.65|))) :
    (∃ b, detect_clouds s₁ threshold = .ok b) ∧
    detect_clouds s₁ threshold = detect_clouds s₂ threshold := by
  obtain ⟨i, hi, hdet1⟩ := detect_clouds_total s₁ threshold h1 hne
  have hne2 : s₂.wavelengths ≠ [] := hw ▸ hne
  obtain ⟨j, hj, hdet2⟩ := detect_clouds_total s₂ threshold h2 hne2
  have hi2 : npArgmin (s₂.wavelengths.map fun w => |w - 1.65|) = .ok i := by
    rw [← hw]; exact hi
  have hij : i = j := Except.ok.inj (hi2.symm.trans hj)
  subst hij
  have hval : s₁.absorption.getD i 0 = s₂.absorption.getD i 0 := by
    rw [hi, hi2] at hagree
    simpa [Except.map] using hagree
  refine ⟨⟨_, hdet1⟩, ?_⟩
  rw [hdet1, hdet2, hval]

/-- Witness for the C9 theorem at two spectra agreeing at the nearest
sample. -/
theorem detect_total_and_noninterference_witness :
    (sampleTwo.absorption.length = sampleTwo.wavelengths.length ∧
      sampleTwoAlt.absorption.length = sampleTwoAlt.wavelengths.length ∧
      sampleTwo.wavelengths = sampleTwoAlt.wavelengths ∧
      sampleTwo.wavelengths ≠ [] ∧
      Except.map (fun i => sampleTwo.absorption.getD i 0)
        (npArgmin (sampleTwo.wavelengths.map fun w => |w - 1.65|)) =
      Except.map (fun i => sampleTwoAlt.absorption.getD i 0)
        (npArgmin (sampleTwoAlt.wavelengths.map fun w => |w - 1.65|))) ∧
    ((∃ b, detect_clouds sampleTwo 0.05 = .ok b) ∧
      detect_clouds sampleTwo 0.05 = detect_clouds sampleTwoAlt 0.05) :=
  ⟨⟨rfl, rfl, rfl, by decide,
    by norm_num [sampleTwo, sampleTwoAlt, npArgmin, argminPair, Except.map, abs]⟩,
   detect_total_and_noninterference sampleTwo sampleTwoAlt 0.05 rfl rfl rfl (by decide)
     (by norm_num [sampleTwo, sampleTwoAlt, npArgmin, argminPair, Except.map, abs])⟩

/-- Claim C10: the loader ignores its path argument and always returns the
synthetic spectrum — 100 wavelengths strictly increasing from 1.0 µm to
3.0 µm with 100 parallel absorption values — so every value it produces
satisfies the Spectrum invariant. -/
theorem loader_ignores_path_and_satisfies_invariant (r : Fin 100 → ℚ) (p q : String) :
    load_spectrum_data r p = load_spectrum_data r q ∧
    (load_spectrum_data r p).wavelengths.length = 100 ∧
    (load_spectrum_data r p).absorption.length = 100 ∧
    (load_spectrum_data r p).absorption.length =
      (load_spectrum_data r p).wavelengths.length ∧
    1 ≤ (load_spectrum_data r p).wavelengths.length ∧
    (load_spectrum_data r p).wavelengths.Pairwise (· < ·) ∧
    (load_spectrum_data r p).wavelengths.getD 0 0 = 1.0 ∧
    (load_spectrum_data r p).wavelengths.getD 99 0 = 3.0 := by
  refine ⟨load_spectrum_data_ignores_path r p q, (load_spectrum_data_lengths r p).1,
    (load_spectrum_data_lengths r p).2, ?_, ?_, load_spectrum_data_sorted r p,
    (load_spectrum_data_endpoints r p).1, (load_spectrum_data_endpoints r p).2⟩
  · rw [(load_spectrum_data_lengths r p).1, (load_spectrum_data_lengths r p).2]
  · rw [(load_spectrum_data_lengths r p).1]
    norm_num

end MarsAtmo
